import Mathlib

/-!
Verification of the PNZ collections report generators.

This file shallowly embeds the report-building core of the repository
(`balance_sum_report.py`, `generate_billing_report.py`, `generate_reports.py`)
in Lean 4 and proves the specification claims about it.

Modelling conventions:
* A pandas cell that may be NaN/NaT is an `Option` value; `pd.to_datetime(...,
  errors="coerce")` is modelled by the row already carrying the parse outcome
  `invDate : Option Date` (an unparseable raw cell is `none`).
* Floating-point numeric cells are modelled by exact rationals `Rat`; Python's
  `int(x)` truncation toward zero is `intTrunc`.
* `Series.sum` skips NaN, so sums go through `List.filterMap`.
* `Series.nunique` counts distinct non-NaN values: `(·.filterMap f).dedup.length`.
-/

namespace PNZ

/-- A calendar date as produced by `pd.to_datetime` (year of a `pd.Timestamp`
is an integer; month and day are 1-based). -/
structure Date where
  year : Int
  month : Nat
  day : Nat
deriving DecidableEq, Repr

/-- Chronological sort key for valid dates (lexicographic year/month/day),
modelling `pd.Timestamp` comparison. -/
def Date.key (d : Date) : Int :=
  d.year * 10000 + (d.month : Int) * 100 + (d.day : Int)

/-- Python `int(x)` on a numeric value: truncation toward zero. -/
def intTrunc (q : Rat) : Int := q.num.tdiv (q.den : Int)

/-- Insert a comma before every fourth digit of a reversed digit list:
`k` counts the digits still allowed before the next separator (helper for
the Python `{:,}` format specifier). -/
def groupGo (k : Nat) : List Char → List Char
  | [] => []
  | c :: rest =>
    if k = 0 then ',' :: c :: groupGo 2 rest else c :: groupGo (k - 1) rest

/-- Python `f"{n:,}"` for a natural number: digits grouped in threes. -/
def fmtNatComma (n : Nat) : String :=
  String.mk ((groupGo 3 (toString n).toList.reverse).reverse)

/-- Python `f"{n:,}"` for an integer. -/
def fmtComma (n : Int) : String :=
  if n < 0 then "-" ++ fmtNatComma (-n).toNat else fmtNatComma n.toNat

/-- Zero-pad a natural number to two digits (Python `%d`, `%02d`). -/
def pad2 (n : Nat) : String :=
  if n < 10 then "0" ++ toString n else toString n

/-- Python `%Y`: the year zero-padded to four digits. -/
def pad4 (n : Int) : String :=
  if n < 0 then "-" ++ toString (-n).toNat
  else
    let s := toString n.toNat
    if s.length < 4 then String.mk (List.replicate (4 - s.length) '0') ++ s else s

/-- Three-letter English month abbreviation (Python `%b`). -/
def monthAbbr (m : Nat) : String :=
  (["Jan", "Feb", "Mar", "Apr", "May", "Jun",
    "Jul", "Aug", "Sep", "Oct", "Nov", "Dec"]).getD (m - 1) ""

/-- Python `strftime("%d-%b-%Y")`. -/
def fmtDate (d : Date) : String :=
  pad2 d.day ++ "-" ++ monthAbbr d.month ++ "-" ++ pad4 d.year

/-- One dataset row, restricted to the columns the report builders read.
`invDate` holds the outcome of `pd.to_datetime(cell, errors="coerce")`
(`none` = NaT, i.e. the raw cell was missing or unparseable); the numeric
and identifier cells are `none` when NaN. -/
structure Row where
  invDate : Option Date
  invValue : Option Rat
  balance : Option Rat
  orderNo : Option String
  invNo : Option String
deriving DecidableEq, Repr

/-- A loaded dataframe: the list of column names actually present in the
source file, plus the typed rows. -/
structure Frame where
  cols : List String
  rows : List Row
deriving DecidableEq, Repr

/-- One step of the running minimum over a date series. -/
def minStep (acc : Option Date) (d : Date) : Option Date :=
  match acc with
  | none => some d
  | some m => some (if d.key < m.key then d else m)

/-- One step of the running maximum over a date series. -/
def maxStep (acc : Option Date) (d : Date) : Option Date :=
  match acc with
  | none => some d
  | some m => some (if m.key < d.key then d else m)

/-- `min` of a date series, skipping NaT (`none` iff the series is empty). -/
def minDate? (l : List Date) : Option Date := l.foldl minStep none

/-- `max` of a date series, skipping NaT (`none` iff the series is empty). -/
def maxDate? (l : List Date) : Option Date := l.foldl maxStep none

/-! ## Balance report core (`balance_sum_report.build_balance_report`) -/

/-- `df["Balance"] > 0`: NaN compares false, so a missing balance is not
payable. -/
def payableP (r : Row) : Bool :=
  match r.balance with
  | some b => decide (0 < b)
  | none => false

/-- `payable = df[df["Balance"] > 0]`. -/
def payableRows (rows : List Row) : List Row := rows.filter payableP

/-- `float(payable["Balance"].sum())` (exact rational sum; NaN skipped). -/
def balanceTotalSum (rows : List Row) : Rat :=
  ((payableRows rows).filterMap Row.balance).sum

/-- `int(balance_total)` as displayed in the balance report. -/
def balanceTotalInt (rows : List Row) : Int := intTrunc (balanceTotalSum rows)

/-- `payable["Order No"].nunique() if "Order No" in payable.columns else
int(payable.shape[0])`. -/
def balOrderCount (df : Frame) : Nat :=
  if "Order No" ∈ df.cols then
    ((payableRows df.rows).filterMap Row.orderNo).dedup.length
  else (payableRows df.rows).length

/-- The effective `Inv Date` cell of a row in `build_balance_report`:
line 81 does `df["Inv Date"] = pd.to_datetime(df.get("Inv Date"),
errors="coerce")`, so when the source file has no `Inv Date` column the
whole column is NaT. -/
def effInvDate (df : Frame) (r : Row) : Option Date :=
  if "Inv Date" ∈ df.cols then r.invDate else none

/-- The non-NaT parsed invoice dates among the payable rows (the series that
`payable["Inv Date"].min()/.max()` reduce over). -/
def payableDates (df : Frame) : List Date :=
  (payableRows df.rows).filterMap (effInvDate df)

/-- Section 3 of the balance report, exactly as in the source: the `"N/A"`
placeholders appear when only one of min/max is NaT. -/
def balanceRangeLines (df : Frame) : List String :=
  let minDate := minDate? (payableDates df)
  let maxDate := maxDate? (payableDates df)
  if minDate.isSome || maxDate.isSome then
    let minStr := match minDate with | some d => fmtDate d | none => "N/A"
    let maxStr := match maxDate with | some d => fmtDate d | none => "N/A"
    ["3) Unpaid invoice date range", "   From " ++ minStr ++ " to " ++ maxStr]
  else
    ["3) Unpaid invoice date range", "   No unpaid invoices found."]

/-- The lines of the balance report (`build_balance_report`'s `lines`). -/
def balanceLines (df : Frame) (customer : String) (asOf : Date) : List String :=
  ["Balance Summary — " ++ customer ++ " (as of " ++ fmtDate asOf ++ ")",
   "",
   "1) Total balance payable as of today: Rs " ++ fmtComma (balanceTotalInt df.rows),
   "",
   "2) Total number of orders with balance payable: " ++ toString (balOrderCount df),
   ""]
  ++ balanceRangeLines df
  ++ ["", "Notes", " - Only invoices with Balance > 0 are counted."]

/-- `build_balance_report(df, customer, as_of)`: the returned report string. -/
def build_balance_report (df : Frame) (customer : String) (asOf : Date) : String :=
  String.intercalate "\n" (balanceLines df customer asOf)

/-! ## Billing report core (`generate_billing_report`) -/

/-- `fy_label(date)`: the financial-year label of a date, `None` for NaT.
The fiscal year runs April–March, so the start year is the calendar year for
month ≥ 4 and the previous calendar year otherwise; the label is
`f"FY{start}-{(start + 1) % 100:02d}"`. -/
def fy_label (date : Option Date) : Option String :=
  match date with
  | none => none
  | some d =>
    let start := if 4 ≤ d.month then d.year else d.year - 1
    some ("FY" ++ toString start ++ "-" ++ pad2 (((start + 1) % 100).toNat))

/-- The derived `FY` cell of a row (`df["FY"] = df["Inv Date"].apply(fy_label)`). -/
def fyOf (r : Row) : Option String := fy_label r.invDate

/-- Numeric value of a decimal digit character. -/
def digitVal (c : Char) : Int := ((c.toNat - '0'.toNat : Nat) : Int)

/-- The regex extraction `FY(\d{4})` applied to an FY label followed by
`astype(int)`: the four digits right after the leading `FY`.  (The Python
regex searches anywhere in the string, but every label this program builds
starts with `FY`, and a label whose start year is not exactly four digits
would make `astype(int)` raise — `pd.Timestamp` years lie in 1677–2262, so
that never happens on labels produced by `fy_label`.) -/
def startYearOf (s : String) : Option Int :=
  match s.toList with
  | 'F' :: 'Y' :: c1 :: c2 :: c3 :: c4 :: _ =>
    if c1.isDigit && c2.isDigit && c3.isDigit && c4.isDigit then
      some (digitVal c1 * 1000 + digitVal c2 * 100 + digitVal c3 * 10 + digitVal c4)
    else none
  | _ => none

/-- The numeric `start_year` sort key of an FY label. -/
def fyStartKey (s : String) : Int := (startYearOf s).getD 0

/-- Ordering of FY labels by numeric start year (`sort_values("start_year")`). -/
def fyLe (a b : String) : Prop := fyStartKey a ≤ fyStartKey b

instance : DecidableRel fyLe := fun _ _ => inferInstanceAs (Decidable (_ ≤ _))

instance : IsTotal String fyLe := ⟨fun _ _ => le_total _ _⟩

instance : IsTrans String fyLe := ⟨fun _ _ _ hab hbc => le_trans hab hbc⟩

/-- The distinct FY labels of the dataframe in the order `groupby("FY")`
followed by `sort_values("start_year")` leaves them: group keys are first
sorted as strings by the groupby, then stably re-sorted by numeric start
year. -/
def fyKeys (rows : List Row) : List String :=
  List.insertionSort fyLe
    (List.insertionSort (· ≤ ·) ((rows.filterMap fyOf).dedup))

/-- One group of the FY breakdown: label, `total_value = ("Inv Value","sum")`
within the group (NaN skipped), and `invoice_count = ("Inv No","size")`,
i.e. the group's row count. -/
def fyGroup (rows : List Row) (k : String) : String × Rat × Nat :=
  let grp := rows.filter (fun r => fyOf r = some k)
  (k, (grp.filterMap Row.invValue).sum, grp.length)

/-- The `fy_breakdown` dataframe after sorting: rows with a non-null FY label
grouped by label, ordered by numeric start year. -/
def fy_breakdown (rows : List Row) : List (String × Rat × Nat) :=
  (fyKeys rows).map (fyGroup rows)

/-- `df["Inv Date"].min()`: first invoice date over all rows, NaT skipped. -/
def firstInvoiceDate (rows : List Row) : Option Date :=
  minDate? (rows.filterMap Row.invDate)

/-- `df["Inv Value"].sum()` (exact rational; NaN skipped). -/
def invValueSum (rows : List Row) : Rat := (rows.filterMap Row.invValue).sum

/-- `lifetime_billing = int(df["Inv Value"].sum())`. -/
def lifetimeBillingInt (rows : List Row) : Int := intTrunc (invValueSum rows)

/-- `df["Balance"].sum()` over all rows (exact rational; NaN skipped). -/
def balanceSum (rows : List Row) : Rat := (rows.filterMap Row.balance).sum

/-- `outstanding_balance = int(df["Balance"].sum())`: no positivity filter. -/
def outstandingBalanceInt (rows : List Row) : Int := intTrunc (balanceSum rows)

/-- `order_count = df["Order No"].nunique()`. -/
def billOrderCount (rows : List Row) : Nat :=
  (rows.filterMap Row.orderNo).dedup.length

/-- `cy_current = df[df["CY"] == current_year]` where `CY` is the date's
year (NaN for NaT, and NaN == y is false). -/
def cyCurrent (currentYear : Int) (rows : List Row) : List Row :=
  rows.filter (fun r => r.invDate.map Date.year = some currentYear)

/-- `undated = df[df["FY"].isna()]`. -/
def undatedRows (rows : List Row) : List Row :=
  rows.filter (fun r => (fyOf r).isNone)

/-- Section 1 of the billing report (`"1) Lifetime billing"`): the first-
invoice-date line is emitted only under `if pd.notna(first_invoice):`. -/
def section1Lines (rows : List Row) : List String :=
  ["1) Lifetime billing",
   "   Total invoiced: Rs " ++ fmtComma (lifetimeBillingInt rows)]
  ++ (match firstInvoiceDate rows with
      | some d => ["   First invoice date: " ++ fmtDate d]
      | none => [])

/-- Section 2 of the billing report: one line per FY group, plus the
`Not dated` line when any undated rows exist. -/
def section2Lines (rows : List Row) : List String :=
  ["2) Billing by financial year (April–March)"]
  ++ (fy_breakdown rows).map (fun g =>
       "   " ++ g.1 ++ ": Rs " ++ fmtComma (intTrunc g.2.1)
       ++ " across " ++ toString g.2.2 ++ " invoice(s)")
  ++ (if (undatedRows rows).length ≠ 0 then
        ["   Not dated: Rs " ++ fmtComma (intTrunc (invValueSum (undatedRows rows)))
         ++ " across " ++ toString (undatedRows rows).length ++ " entry"]
      else [])

/-- The lines of the billing report (`build_report`'s `lines`). -/
def buildReportLines (df : Frame) (customer : String) (asOf : Date) : List String :=
  let currentYear := asOf.year
  let cy := cyCurrent currentYear df.rows
  let cyValue : Int := if cy.isEmpty then 0 else intTrunc (invValueSum cy)
  let cyCount : Nat := if cy.isEmpty then 0 else cy.length
  ["Customer Billing Summary — " ++ customer ++ " (as of " ++ fmtDate asOf ++ ")",
   ""]
  ++ section1Lines df.rows
  ++ [""]
  ++ section2Lines df.rows
  ++ ["",
      "3) Billing for current calendar year (Jan–Dec " ++ toString currentYear ++ ")",
      "   " ++ toString currentYear ++ ": Rs " ++ fmtComma cyValue
        ++ " across " ++ toString cyCount ++ " invoice(s)",
      "",
      "4) Current outstanding balance",
      "   Rs " ++ fmtComma (outstandingBalanceInt df.rows),
      "",
      "5) Total number of rented orders",
      "   " ++ toString (billOrderCount df.rows)]

/-- `build_report(df, customer, as_of)`: the returned report string. -/
def build_report (df : Frame) (customer : String) (asOf : Date) : String :=
  String.intercalate "\n" (buildReportLines df customer asOf)

/-! ## Required-column gate of the billing flow -/

/-- `required_columns = {"Inv Date", "Inv Value", "Balance", "Order No",
"Inv No"}`. -/
def requiredColumns : List String :=
  ["Inv Date", "Inv Value", "Balance", "Order No", "Inv No"]

/-- `sorted(required_columns - set(df.columns))`: the missing required
columns in alphabetical order. -/
def missingColumns (cols : List String) : List String :=
  List.insertionSort (· ≤ ·) (requiredColumns.filter (fun c => c ∉ cols))

/-- The billing flow of `generate_billing_report.main` /
`generate_reports.run_billing_summary`: a `ValueError` naming the missing
columns is raised before any report is built or written; otherwise the
report string is produced. -/
def runBillingFlow (df : Frame) (customer : String) (asOf : Date) :
    Except String String :=
  let missing := missingColumns df.cols
  if missing.isEmpty then .ok (build_report df customer asOf)
  else .error ("Input missing required columns: " ++ String.intercalate ", " missing)

/-! ## Customer-name inference (`infer_customer_name`, identical in both
report scripts) -/

/-- A raw dataframe cell as seen by the name inference: missing (NaN), a
string, or a number. -/
inductive Cell where
  | na : Cell
  | str : String → Cell
  | num : Rat → Cell
deriving DecidableEq, Repr

/-- Whether a cell is missing. -/
def Cell.isNA : Cell → Bool
  | .na => true
  | _ => false

/-- Python `str(cell)` (only ever applied to `.str` cells in practice,
because the dtype guard runs first). -/
def Cell.toStr : Cell → String
  | .na => "nan"
  | .str s => s
  | .num q => toString q

/-- A dataframe viewed as named columns of raw cells (what the inference
reads; order of columns is irrelevant, lookup is by exact name). -/
structure NameData where
  cols : List (String × List Cell)
deriving Repr

/-- Column lookup by exact, case-sensitive name. -/
def NameData.find? (d : NameData) (name : String) : Option (List Cell) :=
  (d.cols.find? (fun p => p.1 == name)).map (·.2)

/-- `series.dropna()`. -/
def dropna (cs : List Cell) : List Cell := cs.filter (fun c => ¬ c.isNA)

/-- Python `str.strip()`: drop leading and trailing whitespace. -/
def pyStrip (s : String) : String :=
  String.mk (((s.toList.dropWhile Char.isWhitespace).reverse.dropWhile
    Char.isWhitespace).reverse)

/-- `pd.api.types.is_string_dtype(series)` on a dropna'd series: every
value is textual. -/
def isStringCells (cs : List Cell) : Bool :=
  cs.all (fun c => match c with | .str _ => true | _ => false)

/-- Distinct values in order of first appearance, tracking the values seen
so far (helper for `uniquesFirst`). -/
def uniquesGo (seen : List String) : List String → List String
  | [] => []
  | x :: xs => if x ∈ seen then uniquesGo seen xs else x :: uniquesGo (x :: seen) xs

/-- `Series.unique()`: distinct values in order of first appearance. -/
def uniquesFirst (l : List String) : List String := uniquesGo [] l

/-- `candidate_columns = ["Billing Name", "Customer Name", "Customer"]`. -/
def candidateColumns : List String := ["Billing Name", "Customer Name", "Customer"]

/-- The loop body of `infer_customer_name` for one present column: dropna;
skip if empty or not string-typed; trim and drop empty strings; succeed
iff exactly one distinct value remains. -/
def columnInference (cs : List Cell) : Option String :=
  let series := dropna cs
  if series.isEmpty then none
  else if ¬ isStringCells series then none
  else
    let values := (series.map (fun c => pyStrip c.toStr)).filter (fun v => v ≠ "")
    let uniques := uniquesFirst values
    if uniques.length = 1 then uniques.head? else none

/-- `infer_customer_name(df)`: first candidate column that infers a name. -/
def infer_customer_name (d : NameData) : Option String :=
  candidateColumns.findSome? (fun col =>
    match d.find? col with
    | none => none
    | some cs => columnInference cs)

/-- Spec-side restatement of the per-column inference, following §4.1 of the
spec: succeed exactly when the trimmed non-empty values are a non-empty run
of one single value ("exactly one distinct non-empty value remains"). Used
to check `infer_customer_name` against the spec's words. -/
def columnInferenceSpec (cs : List Cell) : Option String :=
  let series := dropna cs
  if series.isEmpty then none
  else if ¬ isStringCells series then none
  else
    match (series.map (fun c => pyStrip c.toStr)).filter (fun v => v ≠ "") with
    | [] => none
    | v :: rest => if rest.all (fun x => x = v) then some v else none

/-- Spec-side restatement of the whole inference (first candidate column,
in priority order, whose values are unambiguous). -/
def inferSpec (d : NameData) : Option String :=
  candidateColumns.findSome? (fun col =>
    match d.find? col with
    | none => none
    | some cs => columnInferenceSpec cs)

/-! ## Heap model for the non-mutation claim

The builders receive the caller's dataframe by reference and immediately do
`df = df.copy()`; every later column assignment hits the copy.  To state
this as a frame property we model a store of dataframe objects and the
builders as store transformers: `copy` allocates a fresh object, column
assignments write to the fresh reference. -/

/-- A store of dataframe objects; references are list indices. -/
structure Heap where
  frames : List Frame
deriving Repr

/-- Dereference (out-of-range reads return an empty frame; never exercised). -/
def Heap.read (h : Heap) (i : Nat) : Frame := h.frames.getD i ⟨[], []⟩

/-- `df.copy()`: allocate a fresh object holding the same value. -/
def Heap.alloc (h : Heap) (f : Frame) : Heap × Nat :=
  (⟨h.frames ++ [f]⟩, h.frames.length)

/-- In-place column assignment on the object at `i`. -/
def Heap.write (h : Heap) (i : Nat) (f : Frame) : Heap :=
  ⟨h.frames.set i f⟩

/-- `df["Inv Date"] = pd.to_datetime(df.get("Inv Date"), errors="coerce")`
in the balance builder: ensures the working frame has an `Inv Date` column
(rows already carry the parse outcome). -/
def addBalanceDerived (f : Frame) : Frame :=
  { f with cols := if "Inv Date" ∈ f.cols then f.cols else f.cols ++ ["Inv Date"] }

/-- The three column assignments of the billing builder
(`df["Inv Date"]`, `df["FY"]`, `df["CY"]`). -/
def addBillingDerived (f : Frame) : Frame :=
  { f with cols := f.cols ++ ["FY", "CY"] }

/-- `build_balance_report` as a store transformer: copy the caller's frame,
mutate only the copy, return the new store and the report. -/
def buildBalanceReportH (h : Heap) (dfRef : Nat) (customer : String)
    (asOf : Date) : Heap × String :=
  let df0 := h.read dfRef
  let (h1, wRef) := h.alloc df0
  let h2 := h1.write wRef (addBalanceDerived (h1.read wRef))
  (h2, build_balance_report (h2.read wRef) customer asOf)

/-- `build_report` as a store transformer. -/
def buildReportH (h : Heap) (dfRef : Nat) (customer : String)
    (asOf : Date) : Heap × String :=
  let df0 := h.read dfRef
  let (h1, wRef) := h.alloc df0
  let h2 := h1.write wRef (addBillingDerived (h1.read wRef))
  (h2, build_report (h2.read wRef) customer asOf)

/-! ## Claim-side variant of the balance range section -/

/-- The range section rewritten with no `"N/A"` literal: both endpoints
must be concrete dates for the `From ... to ...` line to appear.  Claim C10
asserts this renders identically to the source's `balanceRangeLines`. -/
def balanceRangeLinesClean (df : Frame) : List String :=
  match minDate? (payableDates df), maxDate? (payableDates df) with
  | some a, some b =>
    ["3) Unpaid invoice date range", "   From " ++ fmtDate a ++ " to " ++ fmtDate b]
  | _, _ =>
    ["3) Unpaid invoice date range", "   No unpaid invoices found."]

/-- The full balance report rendered through the clean range section. -/
def balanceLinesClean (df : Frame) (customer : String) (asOf : Date) : List String :=
  ["Balance Summary — " ++ customer ++ " (as of " ++ fmtDate asOf ++ ")",
   "",
   "1) Total balance payable as of today: Rs " ++ fmtComma (balanceTotalInt df.rows),
   "",
   "2) Total number of orders with balance payable: " ++ toString (balOrderCount df),
   ""]
  ++ balanceRangeLinesClean df
  ++ ["", "Notes", " - Only invoices with Balance > 0 are counted."]

/-- Character-level check that a report line is a `First invoice date` line
(`String.startsWith` is not kernel-reducible, so the check is phrased on the
character list). -/
def isFirstInvoiceLine (l : String) : Bool :=
  l.toList.take ("   First invoice date: ".toList.length)
    = "   First invoice date: ".toList

/-! ## Concrete fixtures used by the theorems and witnesses -/

/-- A payable row: balance 500, order A1, dated 10-Jan-2025 (spec §8). -/
def exBalRow1 : Row := ⟨some ⟨2025, 1, 10⟩, none, some 500, some "A1", none⟩

/-- A credit row: balance −20, order A2, dated 01-Feb-2025 (spec §8). -/
def exNegRow : Row := ⟨some ⟨2025, 2, 1⟩, none, some (-20), some "A2", none⟩

/-- A single-payable-row balance frame. -/
def exBalFrame : Frame := ⟨["Balance", "Order No", "Inv Date"], [exBalRow1]⟩

/-- A billing row dated in FY2024-25. -/
def exBillRow2024 : Row := ⟨some ⟨2024, 6, 1⟩, some 100, some 100, some "O1", some "I1"⟩

/-- A billing row dated in FY2009-10. -/
def exBillRow2009 : Row := ⟨some ⟨2009, 5, 1⟩, some 50, some (-40), some "O2", some "I2"⟩

/-- Two billing rows whose FY groups must sort numerically. -/
def exFYRows : List Row := [exBillRow2024, exBillRow2009]

/-- A billing row whose `Inv Date` failed to parse. -/
def exUndatedBillRow : Row := ⟨none, some 500, some 100, some "O1", some "I1"⟩

/-- A frame with all required columns whose single row has no parseable
date. -/
def exUndatedFrame : Frame := ⟨requiredColumns, [exUndatedBillRow]⟩

/-! ## Helper lemmas -/

theorem foldl_minStep_isSome (l : List Date) (m : Date) :
    (l.foldl minStep (some m)).isSome := by
  induction l generalizing m with
  | nil => rfl
  | cons b t ih => simpa [minStep] using ih _

theorem foldl_maxStep_isSome (l : List Date) (m : Date) :
    (l.foldl maxStep (some m)).isSome := by
  induction l generalizing m with
  | nil => rfl
  | cons b t ih => simpa [maxStep] using ih _

theorem minDate?_eq_none_iff (l : List Date) : minDate? l = none ↔ l = [] := by
  cases l with
  | nil => simp [minDate?]
  | cons d t =>
    simp only [minDate?, List.foldl_cons, minStep]
    have h := foldl_minStep_isSome t d
    constructor
    · intro hc; rw [hc] at h; exact absurd h (by simp)
    · intro hc; exact absurd hc (by simp)

theorem maxDate?_eq_none_iff (l : List Date) : maxDate? l = none ↔ l = [] := by
  cases l with
  | nil => simp [maxDate?]
  | cons d t =>
    simp only [maxDate?, List.foldl_cons, maxStep]
    have h := foldl_maxStep_isSome t d
    constructor
    · intro hc; rw [hc] at h; exact absurd h (by simp)
    · intro hc; exact absurd hc (by simp)

theorem minDate?_isSome_of_cons (d : Date) (t : List Date) :
    (minDate? (d :: t)).isSome := by
  simpa [minDate?, minStep] using foldl_minStep_isSome t d

theorem maxDate?_isSome_of_cons (d : Date) (t : List Date) :
    (maxDate? (d :: t)).isSome := by
  simpa [maxDate?, maxStep] using foldl_maxStep_isSome t d

theorem balanceSum_eq_map_getD (rows : List Row) :
    balanceSum rows = (rows.map (fun r => r.balance.getD 0)).sum := by
  induction rows with
  | nil => rfl
  | cons r t ih =>
    cases hb : r.balance with
    | none => simp [balanceSum, List.filterMap_cons, hb] at ih ⊢; simpa using ih
    | some b => simp [balanceSum, List.filterMap_cons, hb] at ih ⊢; simp [ih]

/-! ## Claim theorems -/

/-- C2: the billing report's current outstanding balance is the truncated
sum of `Balance` over all rows with no positivity filter — a missing balance
contributes 0, while zero and negative (credit) balances are included as
they are — and a dataset with balances 100 and −40 reports 60, not 100. -/
theorem billing_outstanding_sums_all_rows :
    (∀ rows : List Row,
      outstandingBalanceInt rows
        = intTrunc ((rows.map (fun r => r.balance.getD 0)).sum))
    ∧ outstandingBalanceInt
        [⟨none, none, some 100, none, none⟩, ⟨none, none, some (-40), none, none⟩]
        = 60 := by
  constructor
  · intro rows
    unfold outstandingBalanceInt
    rw [balanceSum_eq_map_getD]
  · have h : (100 : Rat) + -40 = 60 := by norm_num
    simp [outstandingBalanceInt, balanceSum, List.filterMap_cons, intTrunc, h,
      Rat.num_ofNat, Rat.den_ofNat]

/-- C3: the fiscal-year classifier labels a date by its calendar year when
the month is April or later and by the previous year otherwise (so any
April-or-later date of year `y` falls in the same fiscal year as any
pre-April date of year `y + 1`); 2025-03-31 is FY2024-25, 2025-04-01 is
FY2025-26, and an absent/unparseable date yields no label. -/
theorem fy_label_april_boundary :
    (∀ (y : Int) (m1 d1 m2 d2 : Nat), 4 ≤ m1 → m2 < 4 →
      fy_label (some ⟨y, m1, d1⟩) = fy_label (some ⟨y + 1, m2, d2⟩))
    ∧ fy_label none = none
    ∧ fy_label (some ⟨2025, 3, 31⟩) = some "FY2024-25"
    ∧ fy_label (some ⟨2025, 4, 1⟩) = some "FY2025-26" := by
  refine ⟨?_, rfl, rfl, rfl⟩
  intro y m1 d1 m2 d2 h1 h2
  have hm2 : ¬ 4 ≤ m2 := by omega
  simp only [fy_label, h1, hm2, if_true, if_false]
  norm_num

/-- Witness for C3: 15-Dec-2025 and 20-Jan-2026 fall in the same fiscal
year. -/
theorem fy_label_april_boundary_witness :
    fy_label (some ⟨2025, 12, 15⟩) = fy_label (some ⟨2025 + 1, 1, 20⟩) :=
  fy_label_april_boundary.1 2025 12 15 1 20 (by decide) (by decide)

theorem missingColumns_example :
    missingColumns ["Inv Date", "Balance", "Inv No"] = ["Inv Value", "Order No"] := by
  have h : (("Inv Value" : String) ≤ "Order No") := String.le_iff_toList_le.mpr (by decide)
  simp only [missingColumns, requiredColumns, List.filter]
  norm_num
  simp [List.insertionSort, List.orderedInsert, h]
  decide

/-- C4: when any of the five required columns is absent, the billing flow
fails with a `ValueError` whose message lists exactly the missing columns,
alphabetically sorted and comma-separated, and no report is built or
written (the flow yields `.error`, never `.ok`); a dataset lacking
`Inv Value` and `Order No` fails naming exactly `Inv Value, Order No`. -/
theorem billing_missing_columns_gate :
    (∀ (df : Frame) (c : String) (a : Date),
      missingColumns df.cols ≠ [] →
        runBillingFlow df c a
            = .error ("Input missing required columns: "
                ++ String.intercalate ", " (missingColumns df.cols))
        ∧ (missingColumns df.cols).Sorted (· ≤ ·)
        ∧ ∀ col, col ∈ missingColumns df.cols
            ↔ col ∈ requiredColumns ∧ col ∉ df.cols)
    ∧ runBillingFlow ⟨["Inv Date", "Balance", "Inv No"], []⟩ "Customer" ⟨2025, 1, 1⟩
        = .error "Input missing required columns: Inv Value, Order No" := by
  constructor
  · intro df c a h
    refine ⟨?_, ?_, ?_⟩
    · unfold runBillingFlow
      rw [if_neg]
      simpa using h
    · exact List.sorted_insertionSort _ _
    · intro col
      unfold missingColumns
      rw [(List.perm_insertionSort _ _).mem_iff, List.mem_filter]
      simp
  · have hm := missingColumns_example
    simp only [runBillingFlow, hm]
    rfl

/-- Witness for C4: the concrete frame lacking `Inv Value` and `Order No`
satisfies the gate's hypothesis, and the flow aborts with the sorted
message. -/
theorem billing_missing_columns_gate_witness :
    missingColumns ["Inv Date", "Balance", "Inv No"] ≠ []
    ∧ runBillingFlow ⟨["Inv Date", "Balance", "Inv No"], []⟩ "Customer" ⟨2025, 1, 1⟩
        = .error ("Input missing required columns: "
            ++ String.intercalate ", " (missingColumns ["Inv Date", "Balance", "Inv No"])) :=
  ⟨by rw [missingColumns_example]; decide,
   (billing_missing_columns_gate.1 ⟨["Inv Date", "Balance", "Inv No"], []⟩
      "Customer" ⟨2025, 1, 1⟩ (by rw [missingColumns_example]; decide)).1⟩

theorem balanceRangeLines_eq_clean (df : Frame) :
    balanceRangeLines df = balanceRangeLinesClean df := by
  rcases h : payableDates df with _ | ⟨d, t⟩
  · simp [balanceRangeLines, balanceRangeLinesClean, h, minDate?, maxDate?]
  · have hmin := minDate?_isSome_of_cons d t
    have hmax := maxDate?_isSome_of_cons d t
    obtain ⟨a, ha⟩ := Option.isSome_iff_exists.mp hmin
    obtain ⟨b, hb⟩ := Option.isSome_iff_exists.mp hmax
    simp [balanceRangeLines, balanceRangeLinesClean, h, ha, hb]

/-- C10: in the balance report the minimum and maximum parsed invoice date
over the payable rows are both present or both absent, so the `"N/A"`
placeholder branch never fires: the report renders identically to a variant
whose range section has no `"N/A"` literal and prints `From ... to ...`
only with two concrete formatted dates. -/
theorem balance_range_no_na :
    ∀ (df : Frame) (c : String) (a : Date),
      (minDate? (payableDates df) = none ↔ maxDate? (payableDates df) = none)
      ∧ balanceLines df c a = balanceLinesClean df c a := by
  intro df c a
  constructor
  · rw [minDate?_eq_none_iff, maxDate?_eq_none_iff]
  · unfold balanceLines balanceLinesClean
    rw [balanceRangeLines_eq_clean]

theorem fy_breakdown_fst (rows : List Row) :
    (fy_breakdown rows).map (fun g => fyStartKey g.1)
      = (fyKeys rows).map fyStartKey := by
  simp [fy_breakdown, List.map_map]
  exact fun a _ => rfl

theorem fyKeys_concrete : fyKeys exFYRows = ["FY2009-10", "FY2024-25"] := by
  have h1 : exFYRows.filterMap fyOf = ["FY2024-25", "FY2009-10"] := by decide
  have h2 : List.dedup ["FY2024-25", "FY2009-10"] = ["FY2024-25", "FY2009-10"] := by
    decide
  have hn : ¬ (("FY2024-25" : String) ≤ "FY2009-10") := by
    rw [String.le_iff_toList_le]; decide
  simp only [fyKeys, h1, h2]
  simp only [List.insertionSort, List.orderedInsert, if_neg hn]
  decide

/-- C5: the fiscal-year lines of section 2 appear in ascending order of the
numeric start-year component extracted from the FY label (the `start_year`
sort key), so for any two groups the smaller start year is rendered first;
concretely, the FY2009-10 group precedes the FY2024-25 group.  (Section 2
renders `(fy_breakdown rows).map ...` in list order, so the ordering of
`fy_breakdown` is the ordering of the report lines.) -/
theorem fy_breakdown_sorted_by_start_year :
    (∀ rows : List Row,
      ((fy_breakdown rows).map (fun g => fyStartKey g.1)).Sorted (· ≤ ·))
    ∧ (fy_breakdown exFYRows).map (fun g => g.1)
        = ["FY2009-10", "FY2024-25"] := by
  constructor
  · intro rows
    rw [fy_breakdown_fst]
    have hs : (fyKeys rows).Sorted fyLe := List.sorted_insertionSort _ _
    exact List.Pairwise.map fyStartKey (fun _ _ h => h) hs
  · have h := fyKeys_concrete
    simp [fy_breakdown, h, fyGroup]

theorem uniquesGo_eq_nil_iff (l seen : List String) :
    uniquesGo seen l = [] ↔ ∀ x ∈ l, x ∈ seen := by
  induction l generalizing seen with
  | nil => simp [uniquesGo]
  | cons x xs ih =>
    by_cases hx : x ∈ seen
    · simp [uniquesGo, hx, ih]
    · simp [uniquesGo, hx]

theorem uniquesFirst_head_eq (values : List String) :
    (if (uniquesFirst values).length = 1 then (uniquesFirst values).head? else none)
      = match values with
        | [] => none
        | v :: rest => if rest.all (fun x => x = v) then some v else none := by
  rcases values with _ | ⟨v, rest⟩
  · simp [uniquesFirst, uniquesGo]
  · show _ = if rest.all (fun x => x = v) then some v else none
    have hunfold : uniquesFirst (v :: rest) = v :: uniquesGo [v] rest := by
      simp [uniquesFirst, uniquesGo]
    cases hall : rest.all (fun x => x = v) with
    | true =>
      have hnil : uniquesGo [v] rest = [] := by
        rw [uniquesGo_eq_nil_iff]
        intro x hx
        have := List.all_eq_true.mp hall x hx
        simp only [decide_eq_true_eq] at this
        simp [this]
      simp [hunfold, hnil]
    | false =>
      have hne : uniquesGo [v] rest ≠ [] := by
        intro hc
        have : rest.all (fun x => x = v) = true := by
          rw [List.all_eq_true]
          intro x hx
          have := (uniquesGo_eq_nil_iff rest [v]).mp hc x hx
          simpa using this
        rw [hall] at this
        exact Bool.false_ne_true this
      have hlen : (uniquesGo [v] rest).length ≠ 0 := by
        intro hc
        exact hne (List.eq_nil_of_length_eq_zero hc)
      rw [hunfold]
      simp only [List.length_cons]
      rw [if_neg (by omega)]
      simp

theorem columnInference_eq_spec (cs : List Cell) :
    columnInference cs = columnInferenceSpec cs := by
  unfold columnInference columnInferenceSpec
  by_cases he : (dropna cs).isEmpty
  · simp [he]
  · by_cases hstr : isStringCells (dropna cs)
    · simp only [he, hstr, Bool.not_true, Bool.false_eq_true, if_false, if_true]
      exact uniquesFirst_head_eq _
    · simp [he, hstr]

/-- C6: customer-name inference tries `Billing Name`, `Customer Name`,
`Customer` in order and, for the first present string-typed candidate whose
trimmed non-missing values contain exactly one distinct non-empty value,
returns that value, moving on (and finally to absence) otherwise — it
coincides with the spec-side restatement `inferSpec` on every dataset; an
ambiguous first candidate falls through to a later one, and a dataset with
only ambiguous candidates infers nothing. -/
theorem infer_customer_name_matches_spec :
    (∀ d : NameData, infer_customer_name d = inferSpec d)
    ∧ infer_customer_name ⟨[("Billing Name", [.str "Acme", .na, .str " Acme "])]⟩
        = some "Acme"
    ∧ infer_customer_name
        ⟨[("Billing Name", [.str "A", .str "B"]), ("Customer", [.str "C"])]⟩
        = some "C"
    ∧ infer_customer_name ⟨[("Customer Name", [.str "A", .str "B"])]⟩ = none
    ∧ infer_customer_name ⟨[("Billing Name", [.num 5, .num 5])]⟩ = none := by
  refine ⟨?_, by decide, by decide, by decide, by decide⟩
  intro d
  unfold infer_customer_name inferSpec
  simp only [candidateColumns, List.findSome?_cons]
  rcases d.find? "Billing Name" with _ | cs1 <;>
    rcases d.find? "Customer Name" with _ | cs2 <;>
    rcases d.find? "Customer" with _ | cs3 <;>
    simp [columnInference_eq_spec]

theorem payableP_eq_false {r : Row}
    (h : r.balance = none ∨ ∃ b, r.balance = some b ∧ b ≤ 0) :
    payableP r = false := by
  rcases h with h | ⟨b, hb, hle⟩
  · simp [payableP, h]
  · simp [payableP, hb, not_lt.mpr hle]

theorem payableRows_append_nonpayable {rows : List Row} {r : Row}
    (h : payableP r = false) :
    payableRows (rows ++ [r]) = payableRows rows := by
  simp [payableRows, List.filter_append, h]

theorem balanceTotalSum_eq_guardedSum (rows : List Row) :
    balanceTotalSum rows
      = (rows.map (fun r => match r.balance with
          | some b => if 0 < b then b else 0
          | none => 0)).sum := by
  induction rows with
  | nil => rfl
  | cons r t ih =>
    simp only [balanceTotalSum, payableRows, List.filter_cons, List.map_cons,
      List.sum_cons] at ih ⊢
    rcases hb : r.balance with _ | b
    · have hpf : payableP r = false := by simp [payableP, hb]
      simp [hpf, ih]
    · by_cases hpos : 0 < b
      · have hpt : payableP r = true := by simp [payableP, hb, hpos]
        simp [hpt, List.filterMap_cons, hb, ih, if_pos hpos]
      · have hpf : payableP r = false := by simp [payableP, hb, hpos]
        simp [hpf, ih, if_neg hpos]

/-- C1: every statistic of the balance report — total payable, order count,
unpaid date range — ranges only over rows with `Balance > 0`: appending a
row whose balance is missing, zero, or negative changes none of them, and
the total payable is the truncated sum of balances over exactly the
positive-balance rows. -/
theorem balance_report_only_positive_rows :
    ∀ (df : Frame) (r : Row),
      (r.balance = none ∨ ∃ b, r.balance = some b ∧ b ≤ 0) →
        balanceTotalInt (df.rows ++ [r]) = balanceTotalInt df.rows
        ∧ balOrderCount { df with rows := df.rows ++ [r] } = balOrderCount df
        ∧ payableDates { df with rows := df.rows ++ [r] } = payableDates df
        ∧ ∀ rows : List Row,
            balanceTotalInt rows
              = intTrunc ((rows.map (fun r' => match r'.balance with
                  | some b => if 0 < b then b else 0
                  | none => 0)).sum) := by
  intro df r h
  have hp := payableP_eq_false h
  have hrows : payableRows (df.rows ++ [r]) = payableRows df.rows :=
    payableRows_append_nonpayable hp
  refine ⟨?_, ?_, ?_, ?_⟩
  · simp [balanceTotalInt, balanceTotalSum, hrows]
  · simp [balOrderCount, hrows]
  · simp only [payableDates, hrows]
    rfl
  · intro rows
    rw [balanceTotalInt, balanceTotalSum_eq_guardedSum]

/-- Witness for C1: appending the credit row (balance −20) to the
single-payable-row frame leaves the reported payable total unchanged. -/
theorem balance_report_only_positive_rows_witness :
    (exNegRow.balance = none ∨ ∃ b, exNegRow.balance = some b ∧ b ≤ 0)
    ∧ balanceTotalInt (exBalFrame.rows ++ [exNegRow])
        = balanceTotalInt exBalFrame.rows :=
  ⟨Or.inr ⟨-20, rfl, by norm_num⟩,
   (balance_report_only_positive_rows exBalFrame exNegRow
      (Or.inr ⟨-20, rfl, by norm_num⟩)).1⟩

theorem fyKeys_append_undated {rows : List Row} {r : Row}
    (h : r.invDate = none) :
    fyKeys (rows ++ [r]) = fyKeys rows := by
  have hfy : fyOf r = none := by simp [fyOf, fy_label, h]
  simp [fyKeys, List.filterMap_append, hfy]

theorem fyGroup_append_undated {rows : List Row} {r : Row}
    (h : r.invDate = none) (k : String) :
    fyGroup (rows ++ [r]) k = fyGroup rows k := by
  have hfy : fyOf r = none := by simp [fyOf, fy_label, h]
  simp [fyGroup, List.filter_append, hfy]

/-- C7: a row whose `Inv Date` failed to parse is degraded, not dropped:
appending such a row leaves the first-invoice date, the fiscal-year
breakdown, the current-calendar-year slice, and (in the balance report) the
payable rows and their date range unchanged, while its `Inv Value` and
`Balance` still contribute in full to the lifetime billing sum and the
outstanding balance sum, it lands in the `Not dated` bucket, and it still
counts toward the payable statistics whenever its balance is positive. -/
theorem unparseable_date_degrades_nonfatally :
    ∀ (rows : List Row) (r : Row), r.invDate = none →
      firstInvoiceDate (rows ++ [r]) = firstInvoiceDate rows
      ∧ fy_breakdown (rows ++ [r]) = fy_breakdown rows
      ∧ (∀ y : Int, cyCurrent y (rows ++ [r]) = cyCurrent y rows)
      ∧ invValueSum (rows ++ [r]) = invValueSum rows + r.invValue.getD 0
      ∧ balanceSum (rows ++ [r]) = balanceSum rows + r.balance.getD 0
      ∧ undatedRows (rows ++ [r]) = undatedRows rows ++ [r]
      ∧ (∀ cols : List String,
          payableDates ⟨cols, rows ++ [r]⟩ = payableDates ⟨cols, rows⟩)
      ∧ payableRows (rows ++ [r])
          = payableRows rows ++ (if payableP r then [r] else []) := by
  intro rows r h
  have hfy : fyOf r = none := by simp [fyOf, fy_label, h]
  refine ⟨?_, ?_, ?_, ?_, ?_, ?_, ?_, ?_⟩
  · simp [firstInvoiceDate, List.filterMap_append, h]
  · rw [fy_breakdown, fy_breakdown, fyKeys_append_undated h]
    exact List.map_congr_left (fun k _ => fyGroup_append_undated h k)
  · intro y
    simp [cyCurrent, List.filter_append, h]
  · rcases hv : r.invValue with _ | v <;>
      simp [invValueSum, List.filterMap_append, hv]
  · rcases hb : r.balance with _ | b <;>
      simp [balanceSum, List.filterMap_append, hb]
  · simp [undatedRows, List.filter_append, hfy]
  · intro cols
    by_cases hp : payableP r
    · simp only [payableDates, payableRows, List.filter_append, hp,
        List.filter_cons, List.filter_nil, List.filterMap_append]
      simp [effInvDate, h]
      rfl
    · simp only [payableDates, payableRows, List.filter_append]
      simp [hp]
      rfl
  · by_cases hp : payableP r <;>
      simp [payableRows, List.filter_append, hp]

/-- Witness for C7: appending the undated billing row keeps the FY breakdown
fixed and adds its invoice value to the lifetime sum. -/
theorem unparseable_date_degrades_nonfatally_witness :
    exUndatedBillRow.invDate = none
    ∧ fy_breakdown (exFYRows ++ [exUndatedBillRow]) = fy_breakdown exFYRows
    ∧ invValueSum (exFYRows ++ [exUndatedBillRow])
        = invValueSum exFYRows + exUndatedBillRow.invValue.getD 0 :=
  ⟨rfl,
   (unparseable_date_degrades_nonfatally exFYRows exUndatedBillRow rfl).2.1,
   (unparseable_date_degrades_nonfatally exFYRows exUndatedBillRow rfl).2.2.2.1⟩

theorem heap_read_write_fresh (frames : List Frame) (i : Nat) (f0 f1 : Frame)
    (hi : i < frames.length) :
    (Heap.write ⟨frames ++ [f0]⟩ frames.length f1).read i
      = Heap.read ⟨frames⟩ i := by
  unfold Heap.write Heap.read
  simp only [List.getD_eq_getElem?_getD]
  rw [List.getElem?_set_ne (by omega), List.getElem?_append_left hi]

/-- C8: neither report builder mutates the caller's dataset: in the store
model both builders first `copy` the caller's frame to a fresh object and
write their derived columns only there, so after either builder returns the
frame at the caller's reference is unchanged. -/
theorem builders_do_not_mutate_caller :
    ∀ (h : Heap) (dfRef : Nat) (c : String) (a : Date),
      dfRef < h.frames.length →
        (buildBalanceReportH h dfRef c a).1.read dfRef = h.read dfRef
        ∧ (buildReportH h dfRef c a).1.read dfRef = h.read dfRef := by
  intro h dfRef c a hlt
  constructor
  · show (Heap.write ⟨h.frames ++ [_]⟩ h.frames.length _).read dfRef = _
    rw [heap_read_write_fresh _ _ _ _ hlt]
  · show (Heap.write ⟨h.frames ++ [_]⟩ h.frames.length _).read dfRef = _
    rw [heap_read_write_fresh _ _ _ _ hlt]

/-- Witness for C8: a one-frame store is untouched at reference 0 by both
builders. -/
theorem builders_do_not_mutate_caller_witness :
    0 < (Heap.mk [exBalFrame]).frames.length
    ∧ (buildBalanceReportH ⟨[exBalFrame]⟩ 0 "Customer" ⟨2025, 1, 1⟩).1.read 0
        = (Heap.mk [exBalFrame]).read 0 :=
  ⟨by decide,
   (builders_do_not_mutate_caller ⟨[exBalFrame]⟩ 0 "Customer" ⟨2025, 1, 1⟩
      (by decide)).1⟩

theorem firstInvoiceDate_eq_none_iff (rows : List Row) :
    firstInvoiceDate rows = none ↔ ∀ r ∈ rows, r.invDate = none := by
  rw [firstInvoiceDate, minDate?_eq_none_iff]
  simp [List.filterMap_eq_nil_iff]

theorem firstInvoiceLine_checker_sound (d : Date) :
    isFirstInvoiceLine ("   First invoice date: " ++ fmtDate d) = true := by
  simp only [isFirstInvoiceLine, String.toList, String.data_append,
    decide_eq_true_eq]
  exact List.take_left _ _

set_option maxRecDepth 10000

/-- C9 (counterexample): a dataset whose single row has all five required
columns but no parseable date renders a section 1 with only the
`Total invoiced` line — no line of the billing report begins with
`First invoice date`, contradicting the claim that section 1 always
contains both lines. -/
theorem billing_first_invoice_line_counterexample :
    section1Lines [exUndatedBillRow]
        = ["1) Lifetime billing", "   Total invoiced: Rs 500"]
    ∧ (buildReportLines exUndatedFrame "Acme" ⟨2025, 11, 28⟩).all
        (fun l => ! isFirstInvoiceLine l) = true := by
  have h500 : intTrunc (invValueSum [exUndatedBillRow]) = 500 := by
    simp only [invValueSum, exUndatedBillRow, List.filterMap_cons,
      List.filterMap_nil, List.sum_cons, List.sum_nil]
    norm_num [intTrunc]
  have h100 : outstandingBalanceInt [exUndatedBillRow] = 100 := by
    simp only [outstandingBalanceInt, balanceSum, exUndatedBillRow,
      List.filterMap_cons, List.filterMap_nil, List.sum_cons, List.sum_nil]
    norm_num [intTrunc]
  have hund : undatedRows [exUndatedBillRow] = [exUndatedBillRow] := by decide
  have hcy : cyCurrent 2025 [exUndatedBillRow] = [] := by decide
  have hkeys : fyKeys [exUndatedBillRow] = [] := by decide
  have hfirst : firstInvoiceDate [exUndatedBillRow] = none := by decide
  constructor
  · simp only [section1Lines, lifetimeBillingInt, hfirst, h500]
    decide
  · simp only [buildReportLines, exUndatedFrame, section1Lines, section2Lines,
      fy_breakdown, lifetimeBillingInt, hkeys, hfirst, h500, h100, hund, hcy]
    norm_num
    decide

/-- C9 (amended): section 1 of the billing report always contains the
`Total invoiced` line, and contains the `First invoice date` line exactly
when some row has a parseable invoice date (when every row is undated the
section is the two lines without it); when the minimum date is `d` the
third line shows `d` formatted. -/
theorem billing_section1_first_invoice_amended :
    ∀ rows : List Row,
      (section1Lines rows).get? 1
          = some ("   Total invoiced: Rs " ++ fmtComma (lifetimeBillingInt rows))
      ∧ ((∃ r ∈ rows, r.invDate ≠ none) ↔ (section1Lines rows).length = 3)
      ∧ (∀ d : Date, firstInvoiceDate rows = some d →
          (section1Lines rows).get? 2
            = some ("   First invoice date: " ++ fmtDate d)) := by
  intro rows
  refine ⟨?_, ?_, ?_⟩
  · rcases hf : firstInvoiceDate rows with _ | d <;> simp [section1Lines, hf]
  · rcases hf : firstInvoiceDate rows with _ | d
    · have hall := (firstInvoiceDate_eq_none_iff rows).mp hf
      simp only [section1Lines, hf]
      constructor
      · rintro ⟨r, hr, hne⟩
        exact absurd (hall r hr) hne
      · intro hlen
        simp at hlen
    · have hne : firstInvoiceDate rows ≠ none := by simp [hf]
      have hex : ∃ r ∈ rows, r.invDate ≠ none := by
        by_contra hc
        push_neg at hc
        exact hne ((firstInvoiceDate_eq_none_iff rows).mpr
          (fun r hr => Option.not_isSome_iff_eq_none.mp (by simp [hc r hr])))
      simp [section1Lines, hf, hex]
  · intro d hd
    simp [section1Lines, hd]

/-- Witness for C9 (amended): for the two dated FY rows the first-invoice
date is 01-May-2009 and the third section-1 line shows it. -/
theorem billing_section1_first_invoice_amended_witness :
    firstInvoiceDate exFYRows = some ⟨2009, 5, 1⟩
    ∧ (section1Lines exFYRows).get? 2
        = some ("   First invoice date: " ++ fmtDate ⟨2009, 5, 1⟩) :=
  ⟨by decide,
   (billing_section1_first_invoice_amended exFYRows).2.2 ⟨2009, 5, 1⟩ (by decide)⟩

end PNZ
